import Mathlib

/-!
Shallow embedding of the web-traffic MLOps repository.

Source files embedded here:
* `app/model_utils.py`  — `FEATURE_COLS`, `_ensure_columns`, `predict_from_df`
* `app/features.py`     — `_parse_timestamp`, `make_features`
* `app/main.py`         — the `/predict` and `/report` route handlers
* `scripts/check_drift.py` — `load_recent_data`, `build_features`, `detect_drift`
* `scripts/retrain.py`  — `load_data`, `build_training_features`

Pandas cells are modelled as `Option ℚ` (`none` is NaN/NaT); a DataFrame is an
ordered association of column names to cell columns.  The external timestamp
parser (`dateutil` / `pd.to_datetime`) is an opaque parameter
`parse : String → Option TS`, and the trained regressor is an opaque
prediction function over the row list.
-/

namespace WebTraffic

/-- A pandas cell value: `none` models NaN, `some q` a numeric value. -/
abbrev Val := Option ℚ

/-- A pandas DataFrame: an ordered association of column names to columns of cells. -/
structure DF where
  cols : List (String × List Val)
deriving DecidableEq

/-- The column labels of a frame, in order (`X.columns`). -/
def DF.colNames (X : DF) : List String := X.cols.map Prod.fst

/-- The cells of a named column (`X[c]`); `[]` when the label is absent. -/
def DF.getCol (X : DF) (c : String) : List Val := (X.cols.lookup c).getD []

/-- Row count of the frame (length of its first column). -/
def DF.nrows (X : DF) : Nat := ((X.cols.head?).map (fun p => p.2.length)).getD 0

/-- The frame as a list of rows (each row lists the cells across columns in order). -/
def DF.rows (X : DF) : List (List Val) := (X.cols.map Prod.snd).transpose

/-- `model_utils.FEATURE_COLS`: the canonical feature schema, in training order. -/
def FEATURE_COLS : List String :=
  ["lag_1", "lag_2", "hour", "day_of_week", "month", "is_weekend", "is_festival"]

/-- The two lag columns, which default to NaN rather than 0. -/
def LAG_COLS : List String := ["lag_1", "lag_2"]

/-- `model_utils._ensure_columns`: add every canonical column that is absent
(lag columns as NaN, calendar/categorical columns as 0), then select exactly
`FEATURE_COLS` in order. -/
def ensure_columns (X : DF) : DF :=
  let added := X.cols ++
    ((FEATURE_COLS.filter (fun c => decide (c ∉ X.colNames))).map
      (fun c => (c, List.replicate X.nrows (if c ∈ LAG_COLS then (none : Val) else some 0))))
  DF.mk (FEATURE_COLS.map (fun c => (c, (added.lookup c).getD [])))

/-- `Series.mean()`: the mean of the non-NaN entries of a column. -/
def colMean (v : List Val) : ℚ :=
  let present := v.filterMap id
  present.sum / (present.length : ℚ)

/-- Lines 44–51 of `model_utils.predict_from_df`: when some lag cell is NaN,
for each lag column independently set every cell to 0.0 when the whole column
is NaN, otherwise fill NaN cells with the column mean of the available cells. -/
def imputeLags (Xp : DF) : DF :=
  if ((Xp.getCol "lag_1" ++ Xp.getCol "lag_2").any Option.isNone) then
    DF.mk (Xp.cols.map (fun p =>
      if p.1 ∈ LAG_COLS then
        (p.1, if p.2.all Option.isNone
              then p.2.map (fun _ => some 0)
              else p.2.map (fun x => some (x.getD (colMean p.2))))
      else p))
  else Xp

/-- `model_utils.predict_from_df` with the loaded regressor abstracted as an
opaque function from the row list to the prediction sequence. -/
def predict_from_df (model : List (List Val) → List ℚ) (X : DF) : List ℚ :=
  model (DF.rows (imputeLags (ensure_columns X)))

/-- A parsed timestamp: an instant (for ordering) together with the calendar
fields pandas derives from it (`.hour`, `.dayofweek` with 0=Monday, `.month`). -/
structure TS where
  instant : ℤ
  hour : ℕ
  dayofweek : ℕ
  month : ℕ
deriving DecidableEq

/-- A raised Python error: either an uncaught `ValueError` or a FastAPI
`HTTPException` carrying a status code and detail. -/
inductive ApiError where
  | valueError (msg : String)
  | httpException (status : ℕ) (detail : String)
deriving DecidableEq

/-- `true` exactly when a route outcome is an HTTP client-input error (4xx). -/
def isClientError {α : Type} : Except ApiError α → Bool
  | Except.error (ApiError.httpException s _) => decide (400 ≤ s ∧ s < 500)
  | _ => false

/-- `features._parse_timestamp`: `ValueError` on a missing timestamp, and
`ValueError` when the external flexible parser rejects the text. -/
def parse_timestamp (parse : String → Option TS) : Option String → Except ApiError TS
  | none => Except.error (ApiError.valueError "timestamp is required")
  | some s =>
    match parse s with
    | some t => Except.ok t
    | none => Except.error (ApiError.valueError ("Invalid timestamp format: " ++ s))

/-- `features.make_features`: the one-row frame with the canonical columns;
lags stay NaN when absent, `is_festival` defaults to 0 when absent. -/
def make_features (parse : String → Option TS) (timestamp : Option String)
    (lag_1 lag_2 : Option ℚ) (is_festival : Option ℤ) : Except ApiError DF :=
  match parse_timestamp parse timestamp with
  | Except.error e => Except.error e
  | Except.ok ts =>
    Except.ok (DF.mk
      [("lag_1", [lag_1]), ("lag_2", [lag_2]),
       ("hour", [some (ts.hour : ℚ)]), ("day_of_week", [some (ts.dayofweek : ℚ)]),
       ("month", [some (ts.month : ℚ)]),
       ("is_weekend", [some (if ts.dayofweek ≥ 5 then (1 : ℚ) else 0)]),
       ("is_festival", [some ((is_festival.getD 0 : ℤ) : ℚ)])])

/-- The body of a `/predict` request (`main.PredictRequest`): pydantic defaults
`lag_1`/`lag_2` to `None` and `is_festival` to `0` when absent. -/
structure PredictRequest where
  timestamp : String
  lag_1 : Option ℚ
  lag_2 : Option ℚ
  is_festival : Option ℤ
deriving DecidableEq

/-- The body of a `/predict` response (`main.PredictResponse`): the prediction
and the echoed input feature map. -/
structure PredictResponse where
  prediction : ℚ
  input : List (String × Val)
deriving DecidableEq

/-- Lists `X.to_dict(orient="records")[0]` for a one-row frame: each column
label paired with its first cell. -/
def DF.toRecord (X : DF) : List (String × Val) :=
  X.cols.map (fun p => (p.1, (p.2.head?).getD none))

/-- The `/predict` route handler (`main.predict`): build the feature frame,
predict, and echo the built frame in the response.  A `ValueError` raised by
`make_features` propagates out of the handler uncaught. -/
def predict_route (parse : String → Option TS) (model : List (List Val) → List ℚ)
    (req : PredictRequest) : Except ApiError PredictResponse :=
  match make_features parse (some req.timestamp) req.lag_1 req.lag_2 req.is_festival with
  | Except.error e => Except.error e
  | Except.ok X =>
    Except.ok (PredictResponse.mk (predict_from_df model X).headI X.toRecord)

/-- The body of a `/report` request (`main.ReportRequest`); pydantic defaults
`is_festival` to 0 when absent. -/
structure ReportRequest where
  timestamp : String
  actual_page_views : ℤ
  is_festival : ℤ
deriving DecidableEq

/-- The `/report` route handler (`main.report`): an unparseable timestamp is
converted to `HTTPException(400)`; otherwise the observation row that gets
appended to the CSV store is returned. -/
def report_route (parse : String → Option TS) (req : ReportRequest) :
    Except ApiError (TS × ℤ × ℤ) :=
  match parse req.timestamp with
  | none => Except.error (ApiError.httpException 400 "Invalid timestamp format")
  | some ts => Except.ok (ts, req.actual_page_views, req.is_festival)

/-- A valid observation row after timestamp parsing
(`timestamp, page_views, is_festival`). -/
structure Obs where
  timestamp : TS
  page_views : ℚ
  is_festival : ℤ
deriving DecidableEq

/-- One feature-enriched row of the training/drift table
(the canonical feature columns plus the target `page_views`). -/
structure FRow where
  lag_1 : ℚ
  lag_2 : ℚ
  hour : ℚ
  day_of_week : ℚ
  month : ℚ
  is_weekend : ℚ
  is_festival : ℚ
  page_views : ℚ
deriving DecidableEq

/-- The feature row derived from observation `o` with lag cells `l1`, `l2`:
calendar fields come from the row's own timestamp and
`is_weekend = (day_of_week >= 5)`. -/
def mkFRow (o : Obs) (l1 l2 : ℚ) : FRow :=
  FRow.mk l1 l2 (o.timestamp.hour : ℚ) (o.timestamp.dayofweek : ℚ) (o.timestamp.month : ℚ)
    (if o.timestamp.dayofweek ≥ 5 then 1 else 0) (o.is_festival : ℚ) o.page_views

/-- `Series.shift(k)`: the first `k` cells become NaN and the values move down
`k` positions, the last `k` values falling off. -/
def pandasShift (k : ℕ) (v : List ℚ) : List Val :=
  List.replicate (min k v.length) none ++ (v.take (v.length - k)).map some

/-- `dropna()` on one row carrying its two shifted lag cells: the row is kept,
as a feature row, exactly when neither lag cell is NaN. -/
def dropnaRow (p : Obs × Val × Val) : Option FRow :=
  match p.2.1, p.2.2 with
  | some a, some b => some (mkFRow p.1 a b)
  | _, _ => none

/-- `check_drift.build_features` (identical to the feature block of
`retrain.build_training_features`): `lag_1 = page_views.shift(1)`,
`lag_2 = page_views.shift(2)`, calendar columns from each row's timestamp,
then `dropna()` removes every row with a NaN lag cell. -/
def build_features (obs : List Obs) : List FRow :=
  let pv := obs.map Obs.page_views
  (obs.zip ((pandasShift 1 pv).zip (pandasShift 2 pv))).filterMap dropnaRow

/-- The 7 canonical feature cells of a row, in `FEATURE_COLS` order. -/
def featureVec (r : FRow) : List ℚ :=
  [r.lag_1, r.lag_2, r.hour, r.day_of_week, r.month, r.is_weekend, r.is_festival]

/-- The named feature column of a row (`df[c]` cell, 0 for a foreign label). -/
def colOf (c : String) (r : FRow) : ℚ :=
  if c = "lag_1" then r.lag_1
  else if c = "lag_2" then r.lag_2
  else if c = "hour" then r.hour
  else if c = "day_of_week" then r.day_of_week
  else if c = "month" then r.month
  else if c = "is_weekend" then r.is_weekend
  else if c = "is_festival" then r.is_festival
  else 0

/-- `retrain.build_training_features`: the same feature pipeline, then select
`X = df[FEATURE_COLS]` and `y = df["page_views"]`. -/
def build_training_features (obs : List Obs) : List (List ℚ) × List ℚ :=
  ((build_features obs).map featureVec, (build_features obs).map FRow.page_views)

/-- `Series.mean()` over a fully numeric column. -/
def qmean (l : List ℚ) : ℚ := l.sum / (l.length : ℚ)

/-- `sklearn.metrics.mean_absolute_error`. -/
def meanAbsError (y_true y_pred : List ℚ) : ℚ :=
  ((y_true.zip y_pred).map (fun p => |p.1 - p.2|)).sum / (y_true.length : ℚ)

/-- The drift report computed by `check_drift.detect_drift`
(the nondeterministic `timestamp` field is omitted). -/
structure DriftReport where
  mae : ℚ
  drift_scores : List (String × ℚ)
  decision : String
deriving DecidableEq

/-- Lines 95–124 of `check_drift.detect_drift`: predict over the feature
columns, the MAE against `page_views`, the per-feature drift score
`|mean(col) - col.iloc[0]|`, and the threshold classification. -/
def evaluate_drift (model : List (List ℚ) → List ℚ) (df : List FRow) : DriftReport :=
  let X := df.map featureVec
  let y_true := df.map FRow.page_views
  let y_pred := model X
  let mae := meanAbsError y_true y_pred
  DriftReport.mk mae
    (FEATURE_COLS.map (fun c => (c, |qmean (df.map (colOf c)) - (df.map (colOf c)).headI|)))
    (if mae < 50 then "NO_DRIFT" else if mae < 120 then "MILD_DRIFT" else "SEVERE_DRIFT")

/-- A raw CSV row of the observation store, before timestamp parsing. -/
structure RawRow where
  timestamp : String
  page_views : ℚ
  is_festival : ℤ
deriving DecidableEq

/-- Timestamp parsing of one raw row (`pd.to_datetime(..., errors="coerce")`
on its `timestamp` cell): `none` when the row's timestamp is coerced to NaT. -/
def toObs (parse : String → Option TS) (r : RawRow) : Option Obs :=
  (parse r.timestamp).map (fun t => Obs.mk t r.page_views r.is_festival)

/-- Ordering of observations by their timestamp instant (`sort_values`). -/
def tsLe (a b : Obs) : Prop := a.timestamp.instant ≤ b.timestamp.instant

instance : DecidableRel tsLe := fun a b => Int.decLe a.timestamp.instant b.timestamp.instant

/-- The outcome of loading the observation store: the parsed rows sorted by
timestamp, and the malformed rows segregated into the side file. -/
structure LoadResult where
  valid : List Obs
  quarantined : List RawRow
deriving DecidableEq

/-- `retrain.load_data` (and lines 37–58 of `check_drift.load_recent_data`):
coerce timestamps, save the NaT rows to a side file, drop them, and sort the
remainder by timestamp. -/
def load_data (parse : String → Option TS) (raw : List RawRow) : LoadResult :=
  LoadResult.mk
    (List.insertionSort tsLe (raw.filterMap (toObs parse)))
    (raw.filter (fun r => (parse r.timestamp).isNone))

/-- Errors raised on the drift-check path. -/
inductive DriftError where
  | insufficientHistory (needed got : ℕ)
deriving DecidableEq

/-- `check_drift.load_recent_data`: after the load, require at least
`window + 2` valid rows (raising an error naming the required and available
counts) and return the last `window` rows (`df.tail(window)`). -/
def load_recent_data (parse : String → Option TS) (window : ℕ) (raw : List RawRow) :
    Except DriftError (List Obs) :=
  let df := (load_data parse raw).valid
  if df.length < window + 2 then
    Except.error (DriftError.insufficientHistory (window + 2) df.length)
  else
    Except.ok (df.drop (df.length - window))

/-- The feature table evaluated by `check_drift.detect_drift`:
`build_features` applied to the loaded recent window. -/
def detect_drift_table (parse : String → Option TS) (window : ℕ) (raw : List RawRow) :
    Except DriftError (List FRow) :=
  (load_recent_data parse window raw).map build_features

/-- `check_drift.detect_drift` (the script calls it with the default
`window = 20`): load the recent window, build features, evaluate drift. -/
def detect_drift (parse : String → Option TS) (model : List (List ℚ) → List ℚ)
    (window : ℕ) (raw : List RawRow) : Except DriftError DriftReport :=
  (detect_drift_table parse window raw).map (evaluate_drift model)

/-! ### Association-list helper lemmas -/

theorem lookup_map_key {β : Type} (g : String → β) (l : List String) (c : String)
    (h : c ∈ l) : (l.map (fun x => (x, g x))).lookup c = some (g c) := by
  induction l with
  | nil => cases h
  | cons x xs ih =>
    by_cases hcx : c = x
    · subst hcx
      simp [List.lookup]
    · have hxne : (c == x) = false := by simp [hcx]
      have hmem : c ∈ xs := (List.mem_cons.mp h).resolve_left hcx
      simp [List.lookup, hxne, ih hmem]

theorem lookup_eq_none_of_not_mem {β : Type} (l : List (String × β)) (c : String)
    (h : c ∉ l.map Prod.fst) : l.lookup c = none := by
  induction l with
  | nil => rfl
  | cons p l ih =>
    have h1 : c ≠ p.1 := by
      intro hc
      exact h (by simp [hc])
    have h2 : c ∉ l.map Prod.fst := by
      intro hc
      exact h (by simp [hc])
    have hb : (c == p.1) = false := by simp [h1]
    simp [List.lookup, hb, ih h2]

theorem lookup_append_of_not_mem {β : Type} (l1 l2 : List (String × β)) (c : String)
    (h : c ∉ l1.map Prod.fst) : (l1 ++ l2).lookup c = l2.lookup c := by
  induction l1 with
  | nil => rfl
  | cons p l1 ih =>
    have h1 : c ≠ p.1 := by
      intro hc
      exact h (by simp [hc])
    have h2 : c ∉ l1.map Prod.fst := by
      intro hc
      exact h (by simp [hc])
    have hb : (c == p.1) = false := by simp [h1]
    simp [List.lookup, hb, ih h2]

theorem lookup_map_keyfix (f : String × List Val → String × List Val)
    (hf : ∀ p, (f p).1 = p.1) (l : List (String × List Val)) (c : String) :
    (l.map f).lookup c = (l.lookup c).map (fun v => (f (c, v)).2) := by
  induction l with
  | nil => rfl
  | cons p l ih =>
    by_cases hcp : c = p.1
    · have hb : (c == (f p).1) = true := by simp [hf, hcp]
      have hb2 : (c == p.1) = true := by simp [hcp]
      have hp : (c, p.2) = p := by
        rw [hcp]
      simp [List.lookup, hb, hb2, hp]
    · have hb : (c == (f p).1) = false := by simp [hf, hcp]
      have hb2 : (c == p.1) = false := by simp [hcp]
      simp [List.lookup, hb, hb2, ih]

/-! ### C1 : schema enforcement -/

/-- Claim C1: for every input table, `_ensure_columns` outputs exactly the
columns `[lag_1, lag_2, hour, day_of_week, month, is_weekend, is_festival]` in
that order, regardless of the input's column order or extra columns; any absent
calendar/categorical column is filled with 0, and any absent lag column is
filled with NaN (null), not zero. -/
theorem C1_schema_enforcement (X : DF) (_hX : X.colNames.Nodup) :
    (ensure_columns X).colNames = FEATURE_COLS ∧
    (∀ c ∈ FEATURE_COLS, c ∉ LAG_COLS → c ∉ X.colNames →
      (ensure_columns X).getCol c = List.replicate X.nrows (some 0)) ∧
    (∀ c ∈ LAG_COLS, c ∉ X.colNames →
      (ensure_columns X).getCol c = List.replicate X.nrows none) := by
  refine ⟨?_, ?_, ?_⟩
  · simp only [ensure_columns, DF.colNames]
    rw [List.map_map]
    exact List.map_id _
  · intro c hc hlag habs
    have hsel : (ensure_columns X).getCol c
        = ((X.cols ++ ((FEATURE_COLS.filter (fun c => decide (c ∉ X.colNames))).map
            (fun c => (c, List.replicate X.nrows
              (if c ∈ LAG_COLS then (none : Val) else some 0))))).lookup c).getD [] := by
      simp only [ensure_columns, DF.getCol]
      rw [lookup_map_key _ FEATURE_COLS c hc]
      rfl
    rw [hsel, lookup_append_of_not_mem _ _ _ habs,
      lookup_map_key _ _ c (List.mem_filter.mpr ⟨hc, by simpa using habs⟩)]
    simp [hlag]
  · intro c hc habs
    have hc2 : c = "lag_1" ∨ c = "lag_2" := by simpa [LAG_COLS] using hc
    have hcf : c ∈ FEATURE_COLS := by
      rcases hc2 with h | h <;> simp [h, FEATURE_COLS]
    have hsel : (ensure_columns X).getCol c
        = ((X.cols ++ ((FEATURE_COLS.filter (fun c => decide (c ∉ X.colNames))).map
            (fun c => (c, List.replicate X.nrows
              (if c ∈ LAG_COLS then (none : Val) else some 0))))).lookup c).getD [] := by
      simp only [ensure_columns, DF.getCol]
      rw [lookup_map_key _ FEATURE_COLS c hcf]
      rfl
    rw [hsel, lookup_append_of_not_mem _ _ _ habs,
      lookup_map_key _ _ c (List.mem_filter.mpr ⟨hcf, by simpa using habs⟩)]
    simp [hc]

/-- Witness for C1 at a concrete table holding only a foreign column. -/
theorem C1_schema_enforcement_witness :
    (ensure_columns (DF.mk [("extra", [some 5])])).colNames = FEATURE_COLS ∧
    (ensure_columns (DF.mk [("extra", [some 5])])).getCol "hour" = [some 0] ∧
    (ensure_columns (DF.mk [("extra", [some 5])])).getCol "lag_1" = [none] := by
  have h := C1_schema_enforcement (DF.mk [("extra", [some 5])]) (by decide)
  refine ⟨h.1, ?_, ?_⟩
  · have h2 := h.2.1 "hour" (by decide) (by decide) (by decide)
    simpa using h2
  · have h3 := h.2.2 "lag_1" (by decide) (by decide)
    simpa using h3

/-! ### C2 : lag imputation -/

theorem map_getD_of_all_some (v : List Val) (m : ℚ) (h : ∀ x ∈ v, x ≠ none) :
    v.map (fun x => some (x.getD m)) = v := by
  induction v with
  | nil => rfl
  | cons x xs ih =>
    have hx : x ≠ none := h x (List.mem_cons_self x xs)
    rcases x with _ | a
    · exact absurd rfl hx
    · simp only [List.map_cons, Option.getD_some]
      rw [ih (fun y hy => h y (List.mem_cons_of_mem _ hy))]

/-- The per-column behaviour of the imputation pass when it runs. -/
theorem imputeLags_getCol_lag (Xp : DF) (c : String) (hc : c ∈ LAG_COLS)
    (hg : ((Xp.getCol "lag_1" ++ Xp.getCol "lag_2").any Option.isNone) = true) :
    (imputeLags Xp).getCol c =
      if (Xp.getCol c).all Option.isNone = true
      then (Xp.getCol c).map (fun _ => some 0)
      else (Xp.getCol c).map (fun x => some (x.getD (colMean (Xp.getCol c)))) := by
  have hf : ∀ p : String × List Val,
      ((if p.1 ∈ LAG_COLS then
          (p.1, if p.2.all Option.isNone
                then p.2.map (fun _ => some (0 : ℚ))
                else p.2.map (fun x => some (x.getD (colMean p.2))))
        else p) : String × List Val).1 = p.1 := by
    intro p
    by_cases hp : p.1 ∈ LAG_COLS <;> simp [hp]
  unfold imputeLags
  rw [if_pos hg]
  show ((Xp.cols.map _).lookup c).getD [] = _
  rw [lookup_map_keyfix _ hf]
  rcases hl : Xp.cols.lookup c with _ | v
  · have hnil : Xp.getCol c = [] := by simp [DF.getCol, hl]
    simp [hnil]
  · have hv : Xp.getCol c = v := by simp [DF.getCol, hl]
    simp [hv, hc]

/-- Claim C2: in the imputation pass, for each lag column independently over
the co-presented batch, an all-null column becomes all 0.0 and otherwise each
null entry is replaced by the mean of the column's non-null entries; in
particular a single-row batch missing both lags imputes `lag_1 = lag_2 = 0.0`,
and a two-row batch with `lag_1 = [null, 80.0]` imputes `lag_1 = [80.0, 80.0]`. -/
theorem C2_lag_imputation :
    (∀ (Xp : DF), ∀ c ∈ LAG_COLS,
      ((∀ x ∈ Xp.getCol c, x = none) →
        (imputeLags Xp).getCol c = (Xp.getCol c).map (fun _ => some 0)) ∧
      ((∃ x ∈ Xp.getCol c, x ≠ none) →
        (imputeLags Xp).getCol c =
          (Xp.getCol c).map (fun x => some (x.getD (colMean (Xp.getCol c)))))) ∧
    (imputeLags (ensure_columns (DF.mk [("hour", [some 7])]))).getCol "lag_1" = [some 0] ∧
    (imputeLags (ensure_columns (DF.mk [("hour", [some 7])]))).getCol "lag_2" = [some 0] ∧
    (imputeLags (ensure_columns (DF.mk [("lag_1", [none, some 80])]))).getCol "lag_1"
      = [some 80, some 80] := by
  refine ⟨?_, by decide, by decide, ?_⟩
  · intro Xp c hc
    have hsub : ∀ x ∈ Xp.getCol c, x ∈ Xp.getCol "lag_1" ++ Xp.getCol "lag_2" := by
      intro x hx
      have hc2 : c = "lag_1" ∨ c = "lag_2" := by simpa [LAG_COLS] using hc
      rcases hc2 with h | h
      · exact List.mem_append_left _ (h ▸ hx)
      · exact List.mem_append_right _ (h ▸ hx)
    constructor
    · intro hall
      rcases he : Xp.getCol c with _ | ⟨x0, rest⟩
      · by_cases hg : ((Xp.getCol "lag_1" ++ Xp.getCol "lag_2").any Option.isNone) = true
        · rw [imputeLags_getCol_lag Xp c hc hg, he]
          rfl
        · unfold imputeLags
          rw [if_neg hg, he]
          rfl
      · have hm0 : x0 ∈ Xp.getCol c := by
          rw [he]
          exact List.mem_cons_self _ _
        have hx0 : x0 = none := hall x0 hm0
        have hx0n : Option.isNone x0 = true := by
          rw [hx0]
          rfl
        have hg : ((Xp.getCol "lag_1" ++ Xp.getCol "lag_2").any Option.isNone) = true :=
          List.any_eq_true.mpr ⟨x0, hsub x0 hm0, hx0n⟩
        have hcond : (Xp.getCol c).all Option.isNone = true :=
          List.all_eq_true.mpr (fun x hx => by rw [hall x hx]; rfl)
        rw [imputeLags_getCol_lag Xp c hc hg, if_pos hcond, he]
    · rintro ⟨x, hx, hxne⟩
      by_cases hg : ((Xp.getCol "lag_1" ++ Xp.getCol "lag_2").any Option.isNone) = true
      · have hcond : ¬ ((Xp.getCol c).all Option.isNone = true) := by
          intro hall
          exact hxne (Option.isNone_iff_eq_none.mp (List.all_eq_true.mp hall x hx))
        rw [imputeLags_getCol_lag Xp c hc hg, if_neg hcond]
      · unfold imputeLags
        rw [if_neg hg]
        have hns : ∀ y ∈ Xp.getCol c, y ≠ none := by
          intro y hy hyn
          have hyn2 : Option.isNone y = true := by
            rw [hyn]
            rfl
          exact hg (List.any_eq_true.mpr ⟨y, hsub y hy, hyn2⟩)
        exact (map_getD_of_all_some _ _ hns).symm
  · norm_num [imputeLags, ensure_columns, DF.getCol, DF.colNames, DF.nrows, colMean,
      FEATURE_COLS, LAG_COLS, List.lookup, List.filterMap_cons]

/-- Witness for C2: the mean-imputation branch applied to a two-row batch
where `lag_1 = [null, 80]` and `lag_2 = [2, null]`. -/
theorem C2_lag_imputation_witness :
    (imputeLags (DF.mk [("lag_1", [none, some 80]), ("lag_2", [some 2, none])])).getCol "lag_1"
      = [some 80, some 80] := by
  have h := (C2_lag_imputation.1
    (DF.mk [("lag_1", [none, some 80]), ("lag_2", [some 2, none])]) "lag_1" (by decide)).2
    ⟨some 80, by decide, by decide⟩
  rw [h]
  norm_num [DF.getCol, colMean, List.lookup, List.filterMap_cons]

/-! ### C3 : drift evaluation -/

/-- Claim C3: the drift report's MAE is the mean absolute error of the model's
predictions over the window's feature columns against `page_views`, each
feature's drift score is `|column mean - first row's value|`, and the decision
is NO_DRIFT iff `mae < 50`, MILD_DRIFT iff `50 ≤ mae < 120`, SEVERE_DRIFT iff
`mae ≥ 120`. -/
theorem C3_drift_report (model : List (List ℚ) → List ℚ) (df : List FRow)
    (_h : df ≠ []) :
    (evaluate_drift model df).mae
        = meanAbsError (df.map FRow.page_views) (model (df.map featureVec)) ∧
    (evaluate_drift model df).drift_scores
        = FEATURE_COLS.map (fun c => (c, |qmean (df.map (colOf c)) - (df.map (colOf c)).headI|)) ∧
    ((evaluate_drift model df).decision = "NO_DRIFT" ↔ (evaluate_drift model df).mae < 50) ∧
    ((evaluate_drift model df).decision = "MILD_DRIFT" ↔
      (50 ≤ (evaluate_drift model df).mae ∧ (evaluate_drift model df).mae < 120)) ∧
    ((evaluate_drift model df).decision = "SEVERE_DRIFT" ↔
      120 ≤ (evaluate_drift model df).mae) := by
  have hd : (evaluate_drift model df).decision =
      (if (evaluate_drift model df).mae < 50 then "NO_DRIFT"
       else if (evaluate_drift model df).mae < 120 then "MILD_DRIFT"
       else "SEVERE_DRIFT") := rfl
  refine ⟨rfl, rfl, ?_, ?_, ?_⟩
  · rw [hd]
    split_ifs with h1 h2
    · simp [h1]
    · constructor
      · intro hs
        exact absurd hs (by decide)
      · intro hq
        exact absurd hq h1
    · constructor
      · intro hs
        exact absurd hs (by decide)
      · intro hq
        exact absurd hq h1
  · rw [hd]
    split_ifs with h1 h2
    · constructor
      · intro hs
        exact absurd hs (by decide)
      · intro hq
        exact absurd h1 (not_lt.mpr hq.1)
    · constructor
      · intro _
        exact ⟨le_of_not_lt h1, h2⟩
      · intro _
        rfl
    · constructor
      · intro hs
        exact absurd hs (by decide)
      · intro hq
        exact absurd hq.2 h2
  · rw [hd]
    split_ifs with h1 h2
    · constructor
      · intro hs
        exact absurd hs (by decide)
      · intro hq
        exact absurd h1 (by linarith)
    · constructor
      · intro hs
        exact absurd hs (by decide)
      · intro hq
        exact absurd h2 (not_lt.mpr hq)
    · constructor
      · intro _
        exact le_of_not_lt h2
      · intro _
        rfl

/-- Witness for C3: a constant-zero model on a one-row window with
`page_views = 60` has MAE 60, which is classified MILD_DRIFT. -/
theorem C3_drift_report_witness :
    (evaluate_drift (fun X => X.map (fun _ => 0)) [FRow.mk 1 2 3 4 5 0 1 60]).decision
      = "MILD_DRIFT" := by
  have h := (C3_drift_report (fun X => X.map (fun _ => 0)) [FRow.mk 1 2 3 4 5 0 1 60]
    (by decide)).2.2.2.1
  exact h.mpr (by norm_num [evaluate_drift, meanAbsError, featureVec])

/-! ### C4 : historical feature derivation -/

theorem dropna_zip_some (xs : List Obs) :
    ∀ (as bs : List ℚ),
      (xs.zip ((as.map some).zip (bs.map some))).filterMap dropnaRow
      = (xs.zip (as.zip bs)).map (fun p => mkFRow p.1 p.2.1 p.2.2) := by
  induction xs with
  | nil => intro as bs; rfl
  | cons x xs ih =>
    intro as bs
    cases as with
    | nil => rfl
    | cons a as =>
      cases bs with
      | nil => rfl
      | cons b bs =>
        simp only [List.map_cons, List.zip_cons_cons, List.filterMap_cons, dropnaRow]
        rw [ih]

theorem zip_take_both {α : Type} (xs : List Obs) :
    ∀ (A B : List α) (n : ℕ), xs.length ≤ n →
      xs.zip ((A.take n).zip (B.take n)) = xs.zip (A.zip B) := by
  induction xs with
  | nil => intro A B n _; rfl
  | cons x xs ih =>
    intro A B n hn
    cases A with
    | nil => simp
    | cons a A =>
      cases B with
      | nil => simp
      | cons b B =>
        cases n with
        | zero => exact absurd hn (by simp)
        | succ n =>
          simp only [List.take_succ_cons, List.zip_cons_cons]
          rw [ih A B n (by simpa using Nat.lt_succ_iff.mp (Nat.lt_of_lt_of_le (Nat.lt_succ_self _) hn))]

/-- `build_features` in closed form: the input's first two rows are dropped
and row `i` of the output pairs observation `i+2` with
`lag_1 = page_views[i+1]` and `lag_2 = page_views[i]`. -/
theorem build_features_eq (obs : List Obs) :
    build_features obs =
      ((obs.drop 2).zip (((obs.map Obs.page_views).drop 1).zip (obs.map Obs.page_views))).map
        (fun p => mkFRow p.1 p.2.1 p.2.2) := by
  match obs with
  | [] => rfl
  | [o] => rfl
  | o1 :: o2 :: rest =>
    simp only [build_features, pandasShift, List.map_cons, List.length_cons, List.length_map]
    have e1 : rest.length + 1 + 1 - 1 = rest.length + 1 := by omega
    have e2 : rest.length + 1 + 1 - 2 = rest.length := by omega
    have e3 : min 1 (rest.length + 1 + 1) = 1 := by omega
    have e4 : min 2 (rest.length + 1 + 1) = 2 := by omega
    rw [e1, e2, e3, e4]
    simp only [List.replicate, List.take_succ_cons, List.map_cons, List.singleton_append,
      List.cons_append, List.nil_append, List.zip_cons_cons, List.filterMap_cons]
    rw [dropna_zip_some, zip_take_both rest _ _ rest.length (le_refl _)]
    rfl

theorem build_features_length (obs : List Obs) :
    (build_features obs).length = obs.length - 2 := by
  rw [build_features_eq]
  simp only [List.length_map, List.length_zip, List.length_drop]
  omega

/-- Claim C4: over any time-ordered observation history, the derived table
pairs each row with `lag_1 = page_views[i-1]`, `lag_2 = page_views[i-2]` and
calendar fields from the row's own timestamp, dropping the first two rows
(so the table has `n - 2` rows); the training script derives the same rows;
on the three observations `[(t1,100,0),(t2,110,0),(t3,90,1)]` exactly one
feature row results, for `t3`, with `lag_1 = 110`, `lag_2 = 100`,
`is_festival = 1`. -/
theorem C4_historical_features :
    (∀ obs : List Obs,
      build_features obs =
        ((obs.drop 2).zip (((obs.map Obs.page_views).drop 1).zip (obs.map Obs.page_views))).map
          (fun p => mkFRow p.1 p.2.1 p.2.2) ∧
      (build_features obs).length = obs.length - 2 ∧
      build_training_features obs =
        ((build_features obs).map featureVec, (build_features obs).map FRow.page_views)) ∧
    (∀ t1 t2 t3 : TS,
      build_features [Obs.mk t1 100 0, Obs.mk t2 110 0, Obs.mk t3 90 1]
        = [mkFRow (Obs.mk t3 90 1) 110 100]) := by
  refine ⟨fun obs => ⟨build_features_eq obs, build_features_length obs, rfl⟩,
    fun t1 t2 t3 => ?_⟩
  rw [build_features_eq]
  rfl

/-! ### C5 : serving-time feature vector -/

/-- Claim C5: for every parseable timestamp and optional inputs,
`make_features` returns a single row with exactly the canonical fields, where
`is_festival` defaults to 0 when absent and the lag cells stay null when
absent; on a Sunday at hour 15 in December with `lag_1 = 120`, `lag_2 = 100`,
`is_festival = 1` the row is exactly
`(120, 100, 15, 6, 12, 1, 1)`. -/
theorem C5_feature_vector (parse : String → Option TS) (s : String) (t : TS)
    (l1 l2 : Option ℚ) (fest : Option ℤ) (h : parse s = some t) :
    ∃ X : DF,
      make_features parse (some s) l1 l2 fest = Except.ok X ∧
      X.colNames = FEATURE_COLS ∧
      X.nrows = 1 ∧
      X.getCol "lag_1" = [l1] ∧
      X.getCol "lag_2" = [l2] ∧
      X.getCol "is_festival" = [some ((fest.getD 0 : ℤ) : ℚ)] ∧
      (t.hour = 15 → t.dayofweek = 6 → t.month = 12 → l1 = some 120 → l2 = some 100 →
        fest = some 1 →
        X = DF.mk [("lag_1", [some 120]), ("lag_2", [some 100]), ("hour", [some 15]),
          ("day_of_week", [some 6]), ("month", [some 12]), ("is_weekend", [some 1]),
          ("is_festival", [some 1])]) := by
  refine ⟨DF.mk
      [("lag_1", [l1]), ("lag_2", [l2]),
       ("hour", [some (t.hour : ℚ)]), ("day_of_week", [some (t.dayofweek : ℚ)]),
       ("month", [some (t.month : ℚ)]),
       ("is_weekend", [some (if t.dayofweek ≥ 5 then (1 : ℚ) else 0)]),
       ("is_festival", [some ((fest.getD 0 : ℤ) : ℚ)])],
    ?_, rfl, rfl, ?_, ?_, ?_, ?_⟩
  · simp [make_features, parse_timestamp, h]
  · simp [DF.getCol, List.lookup]
  · simp [DF.getCol, List.lookup]
  · simp [DF.getCol, List.lookup]
  · intro h15 h6 h12 hl1 hl2 hf
    subst hl1
    subst hl2
    subst hf
    rw [h15, h6, h12]
    norm_num

/-- Witness for C5 at a concrete parser mapping the Sunday 15:00 December
timestamp text to its calendar fields. -/
theorem C5_feature_vector_witness :
    ∃ X : DF,
      make_features (fun _ => some (TS.mk 0 15 6 12)) (some "2025-12-07T15:00:00")
          (some 120) (some 100) (some 1) = Except.ok X ∧
      X.colNames = FEATURE_COLS ∧
      X.nrows = 1 ∧
      X.getCol "lag_1" = [some 120] ∧
      X.getCol "lag_2" = [some 100] ∧
      X.getCol "is_festival" = [some ((((some 1 : Option ℤ)).getD 0 : ℤ) : ℚ)] ∧
      ((TS.mk 0 15 6 12).hour = 15 → (TS.mk 0 15 6 12).dayofweek = 6 →
        (TS.mk 0 15 6 12).month = 12 → (some 120 : Option ℚ) = some 120 →
        (some 100 : Option ℚ) = some 100 → (some 1 : Option ℤ) = some 1 →
        X = DF.mk [("lag_1", [some 120]), ("lag_2", [some 100]), ("hour", [some 15]),
          ("day_of_week", [some 6]), ("month", [some 12]), ("is_weekend", [some 1]),
          ("is_festival", [some 1])]) :=
  C5_feature_vector (fun _ => some (TS.mk 0 15 6 12)) "2025-12-07T15:00:00"
    (TS.mk 0 15 6 12) (some 120) (some 100) (some 1) rfl

/-! ### C6 : timestamp failure handling (amended) -/

/-- Claim C6 (amended): timestamp normalization raises `ValueError` exactly
when the input is null or the flexible parser rejects the text; the report
path converts this to a client-input error (HTTP 400); the prediction path
propagates the raw `ValueError` out of the route handler, which is not a
client-input error. -/
theorem C6_timestamp_errors (parse : String → Option TS) (s : String) :
    (parse_timestamp parse none
      = Except.error (ApiError.valueError "timestamp is required")) ∧
    (parse s = none →
      parse_timestamp parse (some s)
        = Except.error (ApiError.valueError ("Invalid timestamp format: " ++ s))) ∧
    (∀ t, parse s = some t → parse_timestamp parse (some s) = Except.ok t) ∧
    (∀ req : ReportRequest, parse req.timestamp = none →
      report_route parse req
          = Except.error (ApiError.httpException 400 "Invalid timestamp format") ∧
      isClientError (report_route parse req) = true) ∧
    (∀ (model : List (List Val) → List ℚ) (req : PredictRequest),
      parse req.timestamp = none →
      predict_route parse model req
          = Except.error (ApiError.valueError ("Invalid timestamp format: " ++ req.timestamp)) ∧
      isClientError (predict_route parse model req) = false) := by
  refine ⟨rfl, ?_, ?_, ?_, ?_⟩
  · intro hs
    simp [parse_timestamp, hs]
  · intro t ht
    simp [parse_timestamp, ht]
  · intro req hr
    constructor
    · simp [report_route, hr]
    · simp [report_route, hr, isClientError]
  · intro model req hr
    constructor
    · simp [predict_route, make_features, parse_timestamp, hr]
    · simp [predict_route, make_features, parse_timestamp, hr, isClientError]

/-- Witness for C6 with an everywhere-failing parser and an everywhere-
succeeding parser. -/
theorem C6_timestamp_errors_witness :
    parse_timestamp (fun _ => none) (some "x")
      = Except.error (ApiError.valueError "Invalid timestamp format: x") ∧
    parse_timestamp (fun _ => some (TS.mk 0 1 2 3)) (some "x")
      = Except.ok (TS.mk 0 1 2 3) ∧
    (report_route (fun _ => none) (ReportRequest.mk "x" 5 0)
        = Except.error (ApiError.httpException 400 "Invalid timestamp format") ∧
      isClientError (report_route (fun _ => none) (ReportRequest.mk "x" 5 0)) = true) ∧
    (predict_route (fun _ => none) (fun _ => [0]) (PredictRequest.mk "x" none none (some 0))
        = Except.error (ApiError.valueError "Invalid timestamp format: x") ∧
      isClientError (predict_route (fun _ => none) (fun _ => [0])
        (PredictRequest.mk "x" none none (some 0))) = false) :=
  ⟨(C6_timestamp_errors (fun _ => none) "x").2.1 rfl,
   (C6_timestamp_errors (fun _ => some (TS.mk 0 1 2 3)) "x").2.2.1 (TS.mk 0 1 2 3) rfl,
   (C6_timestamp_errors (fun _ => none) "x").2.2.2.1 (ReportRequest.mk "x" 5 0) rfl,
   (C6_timestamp_errors (fun _ => none) "x").2.2.2.2 (fun _ => [0])
     (PredictRequest.mk "x" none none (some 0)) rfl⟩

/-- Counterexample to C6 as stated: with an unparseable timestamp the
prediction route does not surface a client-input error — the raw `ValueError`
escapes the handler. -/
theorem C6_counterexample :
    predict_route (fun _ => none) (fun _ => [0])
        (PredictRequest.mk "2025-99-99" none none (some 0))
      = Except.error (ApiError.valueError "Invalid timestamp format: 2025-99-99") ∧
    isClientError (predict_route (fun _ => none) (fun _ => [0])
        (PredictRequest.mk "2025-99-99" none none (some 0))) = false := by
  constructor
  · rfl
  · rfl

/-! ### C7 : insufficient history -/

/-- Claim C7: a drift check with window `w` raises `InsufficientHistory`
exactly when fewer than `w + 2` valid rows remain after dropping malformed
ones, with the error naming the required count `w + 2` against the available
count; with at least `w + 2` valid rows it does not raise. -/
theorem C7_insufficient_history (parse : String → Option TS) (raw : List RawRow) (w : ℕ) :
    ((load_data parse raw).valid.length < w + 2 →
      load_recent_data parse w raw = Except.error
        (DriftError.insufficientHistory (w + 2) (load_data parse raw).valid.length)) ∧
    (w + 2 ≤ (load_data parse raw).valid.length →
      load_recent_data parse w raw = Except.ok
        ((load_data parse raw).valid.drop ((load_data parse raw).valid.length - w))) := by
  constructor
  · intro h
    simp [load_recent_data, h]
  · intro h
    simp [load_recent_data, Nat.not_lt.mpr h]

/-- Witness for C7: an empty store fails the `window = 20` check naming
`22` against `0`; a store of 22 valid rows passes it. -/
theorem C7_insufficient_history_witness :
    load_recent_data (fun _ => none) 20 []
      = Except.error (DriftError.insufficientHistory (20 + 2)
          (load_data (fun _ => none) []).valid.length) ∧
    load_recent_data (fun _ => some (TS.mk 0 0 0 0)) 20
        (List.replicate 22 (RawRow.mk "t" 1 0))
      = Except.ok ((load_data (fun _ => some (TS.mk 0 0 0 0))
          (List.replicate 22 (RawRow.mk "t" 1 0))).valid.drop
            ((load_data (fun _ => some (TS.mk 0 0 0 0))
              (List.replicate 22 (RawRow.mk "t" 1 0))).valid.length - 20)) :=
  ⟨(C7_insufficient_history (fun _ => none) [] 20).1 (by decide),
   (C7_insufficient_history (fun _ => some (TS.mk 0 0 0 0))
     (List.replicate 22 (RawRow.mk "t" 1 0)) 20).2 (by decide)⟩

/-! ### C8 : quarantine of malformed rows -/

theorem filterMap_toObs_add_filter_length (parse : String → Option TS) (raw : List RawRow) :
    (raw.filterMap (toObs parse)).length
      + (raw.filter (fun r => (parse r.timestamp).isNone)).length = raw.length := by
  induction raw with
  | nil => rfl
  | cons r raw ih =>
    rcases hp : parse r.timestamp with _ | t
    · simp [List.filterMap_cons, List.filter_cons, toObs, hp]
      omega
    · simp [List.filterMap_cons, List.filter_cons, toObs, hp]
      omega

/-- Claim C8: loading a store whose rows include exactly one
malformed-timestamp row returns exactly the valid observations (one fewer
than the raw count), segregates the malformed row, and reports exactly 1
quarantined row; a malformed row is never fatal to the load. -/
theorem C8_quarantine (parse : String → Option TS) (raw : List RawRow)
    (h : (raw.filter (fun r => (parse r.timestamp).isNone)).length = 1) :
    ((load_data parse raw).valid).Perm (raw.filterMap (toObs parse)) ∧
    (load_data parse raw).valid.length = raw.length - 1 ∧
    (load_data parse raw).quarantined.length = 1 := by
  have hlen := filterMap_toObs_add_filter_length parse raw
  refine ⟨?_, ?_, ?_⟩
  · simp only [load_data]
    exact List.perm_insertionSort _ _
  · simp only [load_data]
    rw [List.length_insertionSort]
    omega
  · simp only [load_data]
    exact h

/-- Witness for C8: one malformed row among two valid ones. -/
theorem C8_quarantine_witness :
    ((load_data (fun s => if s = "bad" then none else some (TS.mk 0 0 0 0))
        [RawRow.mk "a" 1 0, RawRow.mk "bad" 2 0, RawRow.mk "c" 3 1]).valid).Perm
      ([RawRow.mk "a" 1 0, RawRow.mk "bad" 2 0, RawRow.mk "c" 3 1].filterMap
        (toObs (fun s => if s = "bad" then none else some (TS.mk 0 0 0 0)))) ∧
    (load_data (fun s => if s = "bad" then none else some (TS.mk 0 0 0 0))
        [RawRow.mk "a" 1 0, RawRow.mk "bad" 2 0, RawRow.mk "c" 3 1]).valid.length
      = [RawRow.mk "a" 1 0, RawRow.mk "bad" 2 0, RawRow.mk "c" 3 1].length - 1 ∧
    (load_data (fun s => if s = "bad" then none else some (TS.mk 0 0 0 0))
        [RawRow.mk "a" 1 0, RawRow.mk "bad" 2 0, RawRow.mk "c" 3 1]).quarantined.length = 1 :=
  C8_quarantine (fun s => if s = "bad" then none else some (TS.mk 0 0 0 0))
    [RawRow.mk "a" 1 0, RawRow.mk "bad" 2 0, RawRow.mk "c" 3 1] (by decide)

/-! ### C9 : the evaluated drift window -/

/-- Claim C9: with window `w` and at least `w + 2` valid observations, the
drift check keeps the last `w` valid rows, recomputes the lags from
`page_views` inside that slice alone, drops the slice's first two rows, and
evaluates MAE and drift scores over the resulting `w - 2` rows. -/
theorem C9_window_slice (parse : String → Option TS) (raw : List RawRow) (w : ℕ)
    (h : w + 2 ≤ (load_data parse raw).valid.length) :
    ∃ slice : List Obs,
      load_recent_data parse w raw = Except.ok slice ∧
      slice = (load_data parse raw).valid.drop ((load_data parse raw).valid.length - w) ∧
      slice.length = w ∧
      detect_drift_table parse w raw = Except.ok (build_features slice) ∧
      (build_features slice).length = w - 2 ∧
      build_features slice =
        ((slice.drop 2).zip (((slice.map Obs.page_views).drop 1).zip
          (slice.map Obs.page_views))).map (fun p => mkFRow p.1 p.2.1 p.2.2) ∧
      (∀ model : List (List ℚ) → List ℚ,
        detect_drift parse model w raw
          = Except.ok (evaluate_drift model (build_features slice))) := by
  have hload : load_recent_data parse w raw = Except.ok
      ((load_data parse raw).valid.drop ((load_data parse raw).valid.length - w)) := by
    simp [load_recent_data, Nat.not_lt.mpr h]
  have hslice : ((load_data parse raw).valid.drop
      ((load_data parse raw).valid.length - w)).length = w := by
    rw [List.length_drop]
    omega
  refine ⟨_, hload, rfl, hslice, ?_, ?_, build_features_eq _, ?_⟩
  · simp [detect_drift_table, hload, Except.map]
  · rw [build_features_length, hslice]
  · intro model
    simp [detect_drift, detect_drift_table, hload, Except.map]

/-- Witness for C9: seven valid rows with window 5 leave a 3-row table. -/
theorem C9_window_slice_witness :
    ∃ slice : List Obs,
      load_recent_data (fun _ => some (TS.mk 0 0 0 0)) 5
          (List.replicate 7 (RawRow.mk "t" 1 0)) = Except.ok slice ∧
      slice = (load_data (fun _ => some (TS.mk 0 0 0 0))
          (List.replicate 7 (RawRow.mk "t" 1 0))).valid.drop
        ((load_data (fun _ => some (TS.mk 0 0 0 0))
          (List.replicate 7 (RawRow.mk "t" 1 0))).valid.length - 5) ∧
      slice.length = 5 ∧
      detect_drift_table (fun _ => some (TS.mk 0 0 0 0)) 5
          (List.replicate 7 (RawRow.mk "t" 1 0)) = Except.ok (build_features slice) ∧
      (build_features slice).length = 5 - 2 ∧
      build_features slice =
        ((slice.drop 2).zip (((slice.map Obs.page_views).drop 1).zip
          (slice.map Obs.page_views))).map (fun p => mkFRow p.1 p.2.1 p.2.2) ∧
      (∀ model : List (List ℚ) → List ℚ,
        detect_drift (fun _ => some (TS.mk 0 0 0 0)) model 5
            (List.replicate 7 (RawRow.mk "t" 1 0))
          = Except.ok (evaluate_drift model (build_features slice))) :=
  C9_window_slice (fun _ => some (TS.mk 0 0 0 0)) (List.replicate 7 (RawRow.mk "t" 1 0)) 5
    (by decide)

/-! ### C10 : the response echoes the pre-imputation vector -/

/-- Claim C10: the `input` field of a prediction response echoes the feature
vector exactly as built from the request — lag fields still null when absent —
while the frame actually fed to the model has those lags imputed; enforcement
and imputation leave the built vector unchanged. -/
theorem C10_input_echo (parse : String → Option TS) (model : List (List Val) → List ℚ)
    (req : PredictRequest) (t : TS) (h : parse req.timestamp = some t) :
    ∃ X : DF,
      make_features parse (some req.timestamp) req.lag_1 req.lag_2 req.is_festival
        = Except.ok X ∧
      predict_route parse model req
        = Except.ok (PredictResponse.mk (predict_from_df model X).headI X.toRecord) ∧
      X.toRecord.lookup "lag_1" = some req.lag_1 ∧
      X.toRecord.lookup "lag_2" = some req.lag_2 ∧
      (req.lag_1 = none → (imputeLags (ensure_columns X)).getCol "lag_1" = [some 0]) ∧
      (req.lag_2 = none → (imputeLags (ensure_columns X)).getCol "lag_2" = [some 0]) := by
  have hmf : make_features parse (some req.timestamp) req.lag_1 req.lag_2 req.is_festival
      = Except.ok (DF.mk
        [("lag_1", [req.lag_1]), ("lag_2", [req.lag_2]),
         ("hour", [some (t.hour : ℚ)]), ("day_of_week", [some (t.dayofweek : ℚ)]),
         ("month", [some (t.month : ℚ)]),
         ("is_weekend", [some (if t.dayofweek ≥ 5 then (1 : ℚ) else 0)]),
         ("is_festival", [some ((req.is_festival.getD 0 : ℤ) : ℚ)])]) := by
    simp [make_features, parse_timestamp, h]
  refine ⟨_, hmf, ?_, ?_, ?_, ?_, ?_⟩
  · simp [predict_route, hmf]
  · simp [DF.toRecord, List.lookup]
  · simp [DF.toRecord, List.lookup]
  · intro h1
    rw [h1]
    simp [imputeLags, ensure_columns, DF.getCol, DF.colNames, DF.nrows,
      FEATURE_COLS, LAG_COLS, List.lookup]
  · intro h2
    rw [h2]
    simp [imputeLags, ensure_columns, DF.getCol, DF.colNames, DF.nrows,
      FEATURE_COLS, LAG_COLS, List.lookup]

/-- Witness for C10: a request with both lags absent echoes null lags while
the model receives imputed zeros. -/
theorem C10_input_echo_witness :
    ∃ X : DF,
      make_features (fun _ => some (TS.mk 0 1 2 3)) (some "x") none none (some 0)
        = Except.ok X ∧
      predict_route (fun _ => some (TS.mk 0 1 2 3)) (fun rows => rows.map (fun _ => 7))
          (PredictRequest.mk "x" none none (some 0))
        = Except.ok (PredictResponse.mk
            (predict_from_df (fun rows => rows.map (fun _ => 7)) X).headI X.toRecord) ∧
      X.toRecord.lookup "lag_1" = some none ∧
      X.toRecord.lookup "lag_2" = some none ∧
      ((none : Option ℚ) = none →
        (imputeLags (ensure_columns X)).getCol "lag_1" = [some 0]) ∧
      ((none : Option ℚ) = none →
        (imputeLags (ensure_columns X)).getCol "lag_2" = [some 0]) :=
  C10_input_echo (fun _ => some (TS.mk 0 1 2 3)) (fun rows => rows.map (fun _ => 7))
    (PredictRequest.mk "x" none none (some 0)) (TS.mk 0 1 2 3) rfl

end WebTraffic
